import Mathlib

/-!
Verification of the clipster-worker screenshot-capture service
(`src/index.ts`, `src/utils.ts`) against its natural-language spec.

The worker is a Cloudflare Durable Object: `Browser.fetch` captures a
screenshot of a URL and stores it in an R2 bucket; `Browser.alarm` is the
idle-timeout tick that eventually closes the browser.  We embed the two
handlers as pure functions over an explicit session state.  Asynchronous,
fallible platform operations (puppeteer launch, page operations, bucket
put, browser close) are resolved by an `Oracle` of booleans saying which
of them would succeed on this call; side effects relevant to the spec
(pages opened/closed, bucket writes, launches) are recorded in a `Trace`.
-/

/-- Characters of the base64 alphabet used by `btoa`. -/
def base64Chars : List Char :=
  "ABCDEFGHIJKLMNOPQRSTUVWXYZabcdefghijklmnopqrstuvwxyz0123456789+/".toList

/-- Base64 digit at index `n` (n < 64). -/
def b64CharAt (n : Nat) : Char := base64Chars.getD n 'A'

/-- Base64 encoding of a byte list, with `=` padding, as produced by the
platform `btoa` function. -/
def btoaBytes : List Nat → String
  | [] => ""
  | [b1] =>
      let n := b1 * 65536
      String.mk [b64CharAt (n / 262144 % 64), b64CharAt (n / 4096 % 64)] ++ "=="
  | [b1, b2] =>
      let n := b1 * 65536 + b2 * 256
      String.mk [b64CharAt (n / 262144 % 64), b64CharAt (n / 4096 % 64),
                 b64CharAt (n / 64 % 64)] ++ "="
  | b1 :: b2 :: b3 :: rest =>
      let n := b1 * 65536 + b2 * 256 + b3
      String.mk [b64CharAt (n / 262144 % 64), b64CharAt (n / 4096 % 64),
                 b64CharAt (n / 64 % 64), b64CharAt (n % 64)] ++ btoaBytes rest

/-- Platform `btoa`: base64 of the code points of a Latin-1 string (the
user ids fed to it are ASCII; code points are reduced mod 256 as btoa
rejects anything larger). -/
def btoa (s : String) : String :=
  btoaBytes (s.toList.map (fun c => c.toNat % 256))

/-- Alphabet passed to the nanoid `customAlphabet` call in `src/utils.ts`. -/
def nanoidAlphabet : List Char :=
  "1234567890abcdefghijklmnopqrstuvwxyzABCDEFGHIJKLMNOPQRSTUVWXYZ".toList

/-- Predicate: `tok` is a possible output of `nanoid()` for the 6-character
custom alphabet (the randomness is an input of the model). -/
def isNanoidToken (tok : String) : Bool :=
  tok.length = 6 && tok.toList.all (fun c => nanoidAlphabet.contains c)

/-- Embedding of `generateId` from `src/utils.ts`: a fixed marker character
followed by the 6-character random token, then the optional suffix.  The
random token produced by `nanoid()` is passed in as `tok`. -/
def generateId (tok : String) (suffix : Option String) : String :=
  "O" ++ tok ++ suffix.getD ""

/-- JavaScript truthiness of a nullable string (`headers.get` result):
`null` and the empty string are falsy, everything else truthy.  This is
what `!urlHeader`, `!userId` and `Boolean(fullPage)` compute on. -/
def jsTruthy : Option String → Bool
  | none => false
  | some s => !s.isEmpty

/-- Scheme characters allowed after the first letter of a URL scheme. -/
def isSchemeChar (c : Char) : Bool :=
  c.isAlphanum || c = '+' || c = '-' || c = '.'

/-- Simplified model of WHATWG `new URL(s)` validity (the platform URL
parser, an external collaborator): the string is an absolute URL iff it
starts with a scheme (a letter followed by scheme characters) and a colon.
`new URL` throws a TypeError on anything else. -/
def isValidURL (s : String) : Bool :=
  match s.toList.findIdx? (fun c => c = ':') with
  | none => false
  | some i =>
    match s.toList.take i with
    | [] => false
    | c :: rest => c.isAlpha && rest.all isSchemeChar

/-- One puppeteer browser handle; `connected` mirrors `isConnected()`. -/
structure Handle where
  connected : Bool
deriving DecidableEq, Repr

/-- Session state of the `Browser` Durable Object.  The first three fields
are the state of the program: the `keptAliveInSeconds` counter, the nullable
`this.browser` field, and the number of storage alarms currently pending
(the Durable Object storage holds at most one alarm; we count scheduled
timers so at-most-one is a theorem rather than a modelling assumption).
The last two fields are history variables recorded for specification
only: how many launches have succeeded and how many idle teardowns
(successful `browser.close()` in `alarm`) have completed. -/
structure Sys where
  keptAliveInSeconds : Nat
  browser : Option Handle
  pendingAlarms : Nat
  launchesSucceeded : Nat
  teardownsCompleted : Nat
deriving DecidableEq, Repr

/-- Initial state of a cold Durable Object (constructor sets the counter
to 0; `this.browser` is unassigned, i.e. null). -/
def Sys.init : Sys := ⟨0, none, 0, 0, 0⟩

/-- Whether `this.browser && this.browser.isConnected()` holds. -/
def handleConnected : Option Handle → Bool
  | none => false
  | some b => b.connected

/-- Oracle resolving the fallible asynchronous platform operations of one
`Browser.fetch` call: which of them would succeed if reached. -/
structure Oracle where
  launchOk : Bool
  newPageOk : Bool
  setViewportOk : Bool
  gotoOk : Bool
  screenshotOk : Bool
  putOk : Bool
  pageCloseOk : Bool
deriving DecidableEq, Repr

/-- Oracle on which every platform operation succeeds. -/
def Oracle.allOk : Oracle := ⟨true, true, true, true, true, true, true⟩

/-- Observable side effects of one `Browser.fetch` call. -/
structure Trace where
  launchAttempts : Nat
  pagesOpened : Nat
  pagesClosed : Nat
  puts : List String
  screenshotFullPage : Option Bool
deriving DecidableEq, Repr

/-- Trace with no effects. -/
def Trace.empty : Trace := ⟨0, 0, 0, [], none⟩

/-- Response bodies the worker produces: `Response.json` with a success
key, `Response.json` with a failure classification, or a plain-text
`new Response(...)` body. -/
inductive Body where
  | jsonSuccessKey (key : String)
  | jsonFailure (error : String)
  | text (s : String)
deriving DecidableEq, Repr

/-- An HTTP response: status code plus body shape. -/
structure HttpResponse where
  status : Nat
  body : Body
deriving DecidableEq, Repr

/-- Outcome of a `Browser.fetch` call: a returned response, or an uncaught
exception propagating out of the handler. -/
inductive Outcome where
  | resp (r : HttpResponse)
  | thrown (msg : String)
deriving DecidableEq, Repr

/-- Request headers read by `Browser.fetch`: `url`, `user-id`,
`full-page` (each `headers.get` result is nullable). -/
structure CaptureHeaders where
  url : Option String
  userId : Option String
  fullPage : Option String
deriving DecidableEq, Repr

/-- Embedding of the try block of `Browser.fetch` (`src/index.ts` lines
119-134): open a fresh page, set the viewport, navigate to the URL, take
the screenshot (with the resolved `fullPage` flag), put the bytes in the
bucket under `bucketKey`, close the page.  The first failing operation
aborts the rest (the catch of the source).  Returns whether the whole block
succeeded, together with the trace extended with the effects that did
happen before the failure. -/
def runPageOps (o : Oracle) (fullPage : Bool) (bucketKey : String) (tr : Trace) :
    Bool × Trace :=
  if !o.newPageOk then (false, tr)
  else if !o.setViewportOk then (false, { tr with pagesOpened := tr.pagesOpened + 1 })
  else if !o.gotoOk then (false, { tr with pagesOpened := tr.pagesOpened + 1 })
  else if !o.screenshotOk then
    (false, { tr with pagesOpened := tr.pagesOpened + 1, screenshotFullPage := some fullPage })
  else if !o.putOk then
    (false, { tr with pagesOpened := tr.pagesOpened + 1, screenshotFullPage := some fullPage })
  else if !o.pageCloseOk then
    (false, { tr with pagesOpened := tr.pagesOpened + 1, screenshotFullPage := some fullPage,
                      puts := tr.puts ++ [bucketKey] })
  else
    (true, { tr with pagesOpened := tr.pagesOpened + 1, pagesClosed := tr.pagesClosed + 1,
                     screenshotFullPage := some fullPage, puts := tr.puts ++ [bucketKey] })

/-- Embedding of lines 94-103 of `src/index.ts`: if there is no browser
session, or it is disconnected, launch a new one; `none` is the caught
launch failure (the source then returns a 500).  Returns the state and
the launch-attempt trace on success. -/
def Browser.ensureBrowser (launchOk : Bool) (st : Sys) : Option (Sys × Trace) :=
  if handleConnected st.browser then some (st, Trace.empty)
  else if launchOk then
    some ({ st with browser := some ⟨true⟩, launchesSucceeded := st.launchesSucceeded + 1 },
          { Trace.empty with launchAttempts := 1 })
  else none

/-- Embedding of lines 111-147 of `src/index.ts`, run once the browser is
ensured: reset `keptAliveInSeconds`, generate the capture id, run the try
block (`runPageOps`) on the bucket key `folder/captureKey.jpg`, turn a
caught failure into a 500; on success reset the counter again, schedule
the alarm only if none is pending (`getAlarm` null check), and return
`{ success: true, key: captureKey }` — the response carries only
`captureKey`, not the bucket key. -/
def Browser.capturePhase (o : Oracle) (tok : String) (fullPage : Bool) (folder : String)
    (st1 : Sys) (tr1 : Trace) : Outcome × Sys × Trace :=
  match runPageOps o fullPage (folder ++ "/" ++ (generateId tok none ++ ".jpg")) tr1 with
  | (false, tr2) =>
      (.resp ⟨500, .jsonFailure "Error during page operations"⟩,
       { st1 with keptAliveInSeconds := 0 }, tr2)
  | (true, tr2) =>
      (.resp ⟨200, .jsonSuccessKey (generateId tok none)⟩,
       if st1.pendingAlarms = 0
       then { st1 with keptAliveInSeconds := 0, pendingAlarms := 1 }
       else { st1 with keptAliveInSeconds := 0 }, tr2)

/-- Embedding of `Browser.fetch` (the Durable Object capture handler,
`src/index.ts` lines 77-148).  Returns the outcome, the post state and
the effect trace.  Control flow follows the source: missing-URL check,
`new URL` (throws a TypeError on an invalid URL), missing-user-id check,
conditional launch (`ensureBrowser`), the dead null re-check of line 106,
then the capture phase on the folder `captures/user-btoa(userId)`. -/
def Browser.fetch (o : Oracle) (tok : String) (h : CaptureHeaders) (st : Sys) :
    Outcome × Sys × Trace :=
  if !(jsTruthy h.url) then
    (.resp ⟨400, .jsonFailure "Invalid capture options: Missing URL"⟩, st, Trace.empty)
  else if !(isValidURL (h.url.getD "")) then
    (.thrown "TypeError: Invalid URL", st, Trace.empty)
  else if !(jsTruthy h.userId) then
    (.resp ⟨400, .jsonFailure "Invalid capture options: Missing user ID"⟩, st, Trace.empty)
  else
    match Browser.ensureBrowser o.launchOk st with
    | none =>
        (.resp ⟨500, .jsonFailure "Failed to start browser"⟩, st,
          { Trace.empty with launchAttempts := 1 })
    | some (st1, tr1) =>
        if st1.browser.isNone then
          (.resp ⟨500, .jsonFailure "Browser initialization failed"⟩, st1, tr1)
        else
          Browser.capturePhase o tok (jsTruthy h.fullPage)
            ("captures/user-" ++ btoa (h.userId.getD "")) st1 tr1

/-- Keep-alive threshold constant from `src/index.ts`. -/
def KEEP_BROWSER_ALIVE_IN_SECONDS : Nat := 60

/-- Embedding of `Browser.alarm` (`src/index.ts` lines 150-167), the body
of the idle-tick handler: increment the counter by 10; below the
threshold, schedule another alarm; at or above it, close the browser if
the field is set.  `closeOk` resolves whether `browser.close()` would
succeed; a failing close propagates as an error out of the handler (the
source has no try/catch here).  `setAlarm` is modelled as incrementing
the pending-alarm count; consumption of the alarm that fired belongs to
the scheduling substrate (see `sysTickOk` / `Step.tick`). -/
def Browser.alarm (closeOk : Bool) (st : Sys) : Except String Unit × Sys :=
  if st.keptAliveInSeconds + 10 < KEEP_BROWSER_ALIVE_IN_SECONDS then
    (.ok (), { st with keptAliveInSeconds := st.keptAliveInSeconds + 10,
                       pendingAlarms := st.pendingAlarms + 1 })
  else
    match st.browser with
    | some b =>
        if closeOk then
          (.ok (), { st with keptAliveInSeconds := st.keptAliveInSeconds + 10,
                             browser := some { b with connected := false },
                             teardownsCompleted := st.teardownsCompleted + 1 })
        else
          (.error "browser.close failed",
           { st with keptAliveInSeconds := st.keptAliveInSeconds + 10 })
    | none => (.ok (), { st with keptAliveInSeconds := st.keptAliveInSeconds + 10 })

/-- One idle tick of the scheduling substrate with a succeeding close:
the pending alarm that fires is consumed, then the `alarm` handler runs. -/
def sysTickOk (st : Sys) : Sys :=
  (Browser.alarm true { st with pendingAlarms := st.pendingAlarms - 1 }).2

/-- State after `n` consecutive idle ticks with no intervening capture. -/
def iterAlarmOk : Nat → Sys → Sys
  | 0, st => st
  | n + 1, st => sysTickOk (iterAlarmOk n st)

/-- Transition relation of one Session: a capture call with arbitrary
headers, token and oracle; an idle tick (only enabled while an alarm is
pending, which the firing consumes); or a spontaneous disconnection of
the browser connection. -/
inductive Step : Sys → Sys → Prop
  | capture (o : Oracle) (tok : String) (h : CaptureHeaders) (st : Sys) :
      Step st (Browser.fetch o tok h st).2.1
  | tick (closeOk : Bool) (st : Sys) (hp : 1 ≤ st.pendingAlarms) :
      Step st (Browser.alarm closeOk { st with pendingAlarms := st.pendingAlarms - 1 }).2
  | disconnect (st : Sys) (b : Handle) (hb : st.browser = some b) :
      Step st { st with browser := some { b with connected := false } }

/-- States reachable from the cold initial state. -/
inductive Reachable : Sys → Prop
  | init : Reachable Sys.init
  | step {st st2 : Sys} : Reachable st → Step st st2 → Reachable st2

/-- Request seen by the outer worker router: HTTP method, the Clerk
authentication result (`authState.userId`, null when unauthenticated),
and the `url` form field for POST requests. -/
structure RouterRequest where
  method : String
  auth : Option String
  formUrl : Option String
deriving DecidableEq, Repr

/-- Result of the outer worker `fetch`: a sign-in redirect, a response,
or an uncaught exception. -/
inductive WorkerResult where
  | redirect (status : Nat)
  | resp (r : HttpResponse)
  | thrown (msg : String)
deriving DecidableEq, Repr

/-- Lift a Durable Object outcome to a worker result (an exception thrown
by the DO call rethrows at the awaiting worker). -/
def wrapOutcome : Outcome → WorkerResult
  | .resp r => .resp r
  | .thrown m => .thrown m

/-- Embedding of the outer worker `fetch` (`src/index.ts` lines 21-58):
redirect when unauthenticated; GET returns the placeholder text; POST
validates the form `url` field and forwards to the Durable Object with
`user-id` and `url` headers (and no `full-page` header); any other
method is rejected with a plain-text 405. -/
def workerFetch (bucketOrigin : String) (o : Oracle) (tok : String)
    (req : RouterRequest) (st : Sys) : WorkerResult × Sys × Trace :=
  if !(jsTruthy req.auth) then
    (.redirect 307, st, Trace.empty)
  else if req.method = "GET" then
    (.resp ⟨200, .text ("Hello from the browser Durable Object! Bucket origin: "
        ++ bucketOrigin)⟩, st, Trace.empty)
  else if req.method = "POST" then
    if !(jsTruthy req.formUrl) then
      (.resp ⟨400, .text "Invalid capture options"⟩, st, Trace.empty)
    else
      (wrapOutcome (Browser.fetch o tok ⟨req.formUrl, req.auth, none⟩ st).1,
       (Browser.fetch o tok ⟨req.formUrl, req.auth, none⟩ st).2)
  else
    (.resp ⟨405, .text "Invalid method"⟩, st, Trace.empty)

/-! ### Discriminators for response shapes -/

/-- Whether an outcome is a returned response (as opposed to an uncaught
exception). -/
def Outcome.isResp : Outcome → Bool
  | .resp _ => true
  | .thrown _ => false

/-- Whether a body is the structured failure payload
`{ success: false, error: ... }`. -/
def isStructuredFailure : Body → Bool
  | .jsonFailure _ => true
  | _ => false

/-- The response shapes the Durable Object handler can produce, per the
outbound-response table of the spec: structured 400 for the two input defects,
structured 500 for launch/page failures, structured success with the
capture key. -/
def doResponseShape : HttpResponse → Bool
  | ⟨400, .jsonFailure e⟩ =>
      e = "Invalid capture options: Missing URL"
        || e = "Invalid capture options: Missing user ID"
  | ⟨500, .jsonFailure e⟩ =>
      e = "Failed to start browser" || e = "Browser initialization failed"
        || e = "Error during page operations"
  | ⟨200, .jsonSuccessKey _⟩ => true
  | _ => false

/-! ### Concrete example run: a capture on a cold Session, then idle ticks -/

/-- Headers of a well-formed capture request. -/
def exHeaders : CaptureHeaders := ⟨some "https://example.com", some "user_42", none⟩

/-- State after one successful capture on the cold Session. -/
def stAfterCapture : Sys := (Browser.fetch Oracle.allOk "abc123" exHeaders Sys.init).2.1

/-- State after that capture and five idle ticks (counter 50, still alive). -/
def exIdleSt : Sys := iterAlarmOk 5 stAfterCapture

/-- State after that capture and six idle ticks (idle-threshold teardown done). -/
def exTeardownSt : Sys := iterAlarmOk 6 stAfterCapture


/-- Shape of any outcome `Browser.fetch` can produce: a response of one
of the classified shapes, or an uncaught exception. -/
def outcomeShapeOk : Outcome → Bool
  | .resp r => doResponseShape r
  | .thrown _ => true

/-! ### Elementary facts about the stages of `Browser.fetch` -/

lemma handleConnected_isNone (ob : Option Handle) (hc : handleConnected ob = true) :
    ob.isNone = false := by
  cases ob <;> simp_all [handleConnected]

lemma ensureBrowser_none_state (l : Bool) (st : Sys) (he : Browser.ensureBrowser l st = none) :
    handleConnected st.browser = false ∧ l = false := by
  unfold Browser.ensureBrowser at he
  split_ifs at he <;> simp_all

lemma ensureBrowser_connected (l : Bool) (st : Sys) (hc : handleConnected st.browser = true) :
    Browser.ensureBrowser l st = some (st, Trace.empty) := by
  unfold Browser.ensureBrowser
  simp [hc]

lemma ensureBrowser_some_state (l : Bool) (st st1 : Sys) (tr1 : Trace)
    (he : Browser.ensureBrowser l st = some (st1, tr1)) :
    st1.keptAliveInSeconds = st.keptAliveInSeconds
    ∧ st1.pendingAlarms = st.pendingAlarms
    ∧ st1.teardownsCompleted = st.teardownsCompleted
    ∧ handleConnected st1.browser = true
    ∧ ((st1.browser = st.browser ∧ st1.launchesSucceeded = st.launchesSucceeded)
        ∨ (st1.browser = some ⟨true⟩ ∧ st1.launchesSucceeded = st.launchesSucceeded + 1))
    ∧ tr1.pagesOpened = 0 ∧ tr1.pagesClosed = 0 ∧ tr1.puts = []
    ∧ tr1.screenshotFullPage = none := by
  unfold Browser.ensureBrowser at he
  split_ifs at he with h1 h2
  · cases he
    exact ⟨rfl, rfl, rfl, h1, Or.inl ⟨rfl, rfl⟩, rfl, rfl, rfl, rfl⟩
  · cases he
    exact ⟨rfl, rfl, rfl, rfl, Or.inr ⟨rfl, rfl⟩, rfl, rfl, rfl, rfl⟩

lemma runPageOps_fst (o : Oracle) (fp : Bool) (key : String) (tr : Trace) :
    (runPageOps o fp key tr).1
      = (o.newPageOk && o.setViewportOk && o.gotoOk && o.screenshotOk
          && o.putOk && o.pageCloseOk) := by
  unfold runPageOps
  split_ifs <;> simp_all

lemma runPageOps_pagesOpened (o : Oracle) (fp : Bool) (key : String) (tr : Trace)
    (hnp : o.newPageOk = true) :
    (runPageOps o fp key tr).2.pagesOpened = tr.pagesOpened + 1 := by
  unfold runPageOps
  split_ifs <;> simp_all

lemma runPageOps_pagesClosed (o : Oracle) (fp : Bool) (key : String) (tr : Trace) :
    (runPageOps o fp key tr).2.pagesClosed
      = tr.pagesClosed
        + (if o.newPageOk && o.setViewportOk && o.gotoOk && o.screenshotOk
              && o.putOk && o.pageCloseOk then 1 else 0) := by
  unfold runPageOps
  split_ifs <;> simp_all

lemma runPageOps_puts (o : Oracle) (fp : Bool) (key : String) (tr : Trace) :
    (runPageOps o fp key tr).2.puts
      = if o.newPageOk && o.setViewportOk && o.gotoOk && o.screenshotOk && o.putOk
        then tr.puts ++ [key] else tr.puts := by
  unfold runPageOps
  split_ifs <;> simp_all

lemma runPageOps_fullPage (o : Oracle) (fp : Bool) (key : String) (tr : Trace)
    (h1 : o.newPageOk = true) (h2 : o.setViewportOk = true) (h3 : o.gotoOk = true) :
    (runPageOps o fp key tr).2.screenshotFullPage = some fp := by
  unfold runPageOps
  split_ifs <;> simp_all

lemma runPageOps_launchAttempts (o : Oracle) (fp : Bool) (key : String) (tr : Trace) :
    (runPageOps o fp key tr).2.launchAttempts = tr.launchAttempts := by
  unfold runPageOps
  split_ifs <;> simp_all

lemma capturePhase_trace (o : Oracle) (tok : String) (fp : Bool) (folder : String)
    (st1 : Sys) (tr1 : Trace) :
    (Browser.capturePhase o tok fp folder st1 tr1).2.2
      = (runPageOps o fp (folder ++ "/" ++ (generateId tok none ++ ".jpg")) tr1).2 := by
  unfold Browser.capturePhase
  rcases hr : runPageOps o fp (folder ++ "/" ++ (generateId tok none ++ ".jpg")) tr1
    with ⟨ok, tr2⟩
  cases ok <;> simp

lemma capturePhase_outcome (o : Oracle) (tok : String) (fp : Bool) (folder : String)
    (st1 : Sys) (tr1 : Trace) :
    (Browser.capturePhase o tok fp folder st1 tr1).1
      = if (runPageOps o fp (folder ++ "/" ++ (generateId tok none ++ ".jpg")) tr1).1
        then .resp ⟨200, .jsonSuccessKey (generateId tok none)⟩
        else .resp ⟨500, .jsonFailure "Error during page operations"⟩ := by
  unfold Browser.capturePhase
  rcases hr : runPageOps o fp (folder ++ "/" ++ (generateId tok none ++ ".jpg")) tr1
    with ⟨ok, tr2⟩
  cases ok <;> simp

lemma capturePhase_keptAlive (o : Oracle) (tok : String) (fp : Bool) (folder : String)
    (st1 : Sys) (tr1 : Trace) :
    (Browser.capturePhase o tok fp folder st1 tr1).2.1.keptAliveInSeconds = 0 := by
  unfold Browser.capturePhase
  rcases hr : runPageOps o fp (folder ++ "/" ++ (generateId tok none ++ ".jpg")) tr1
    with ⟨ok, tr2⟩
  cases ok <;> simp <;> split_ifs <;> rfl

lemma capturePhase_browser (o : Oracle) (tok : String) (fp : Bool) (folder : String)
    (st1 : Sys) (tr1 : Trace) :
    (Browser.capturePhase o tok fp folder st1 tr1).2.1.browser = st1.browser := by
  unfold Browser.capturePhase
  rcases hr : runPageOps o fp (folder ++ "/" ++ (generateId tok none ++ ".jpg")) tr1
    with ⟨ok, tr2⟩
  cases ok <;> simp <;> split_ifs <;> rfl

lemma capturePhase_teardowns (o : Oracle) (tok : String) (fp : Bool) (folder : String)
    (st1 : Sys) (tr1 : Trace) :
    (Browser.capturePhase o tok fp folder st1 tr1).2.1.teardownsCompleted
      = st1.teardownsCompleted := by
  unfold Browser.capturePhase
  rcases hr : runPageOps o fp (folder ++ "/" ++ (generateId tok none ++ ".jpg")) tr1
    with ⟨ok, tr2⟩
  cases ok <;> simp <;> split_ifs <;> rfl

lemma capturePhase_launches (o : Oracle) (tok : String) (fp : Bool) (folder : String)
    (st1 : Sys) (tr1 : Trace) :
    (Browser.capturePhase o tok fp folder st1 tr1).2.1.launchesSucceeded
      = st1.launchesSucceeded := by
  unfold Browser.capturePhase
  rcases hr : runPageOps o fp (folder ++ "/" ++ (generateId tok none ++ ".jpg")) tr1
    with ⟨ok, tr2⟩
  cases ok <;> simp <;> split_ifs <;> rfl

lemma fetch_valid_eq (o : Oracle) (tok : String) (h : CaptureHeaders) (st st1 : Sys)
    (tr1 : Trace)
    (hu : jsTruthy h.url = true) (hv : isValidURL (h.url.getD "") = true)
    (hid : jsTruthy h.userId = true)
    (he : Browser.ensureBrowser o.launchOk st = some (st1, tr1)) :
    Browser.fetch o tok h st
      = Browser.capturePhase o tok (jsTruthy h.fullPage)
          ("captures/user-" ++ btoa (h.userId.getD "")) st1 tr1 := by
  have hc := (ensureBrowser_some_state o.launchOk st st1 tr1 he).2.2.2.1
  unfold Browser.fetch
  simp [hu, hv, hid, he, handleConnected_isNone st1.browser hc]

/-! ### State-evolution facts used by the temporal claims -/

lemma fetch_pendingAlarms (o : Oracle) (tok : String) (h : CaptureHeaders) (st : Sys) :
    (Browser.fetch o tok h st).2.1.pendingAlarms = st.pendingAlarms
    ∨ ((Browser.fetch o tok h st).2.1.pendingAlarms = 1 ∧ st.pendingAlarms = 0) := by
  unfold Browser.fetch
  split_ifs <;> try (left ; rfl)
  rcases he : Browser.ensureBrowser o.launchOk st with _ | ⟨st1, tr1⟩
  · left ; rfl
  · have hp := (ensureBrowser_some_state o.launchOk st st1 tr1 he).2.1
    dsimp only
    split_ifs
    · left ; exact hp
    · unfold Browser.capturePhase
      rcases hr : runPageOps o (jsTruthy h.fullPage)
        ("captures/user-" ++ btoa (h.userId.getD "") ++ "/" ++ (generateId tok none ++ ".jpg"))
        tr1 with ⟨ok, tr2⟩
      cases ok <;> dsimp only <;> [ (left ; exact hp) ; split_ifs with h0 ]
      · right ; exact ⟨rfl, by rw [← hp] ; exact h0⟩
      · left ; exact hp

lemma fetch_browser_launches (o : Oracle) (tok : String) (h : CaptureHeaders) (st : Sys) :
    ((Browser.fetch o tok h st).2.1.browser = st.browser
      ∧ (Browser.fetch o tok h st).2.1.launchesSucceeded = st.launchesSucceeded)
    ∨ ((Browser.fetch o tok h st).2.1.browser = some ⟨true⟩
      ∧ (Browser.fetch o tok h st).2.1.launchesSucceeded = st.launchesSucceeded + 1) := by
  unfold Browser.fetch
  split_ifs <;> try (left ; exact ⟨rfl, rfl⟩)
  rcases he : Browser.ensureBrowser o.launchOk st with _ | ⟨st1, tr1⟩
  · left ; exact ⟨rfl, rfl⟩
  · have hs := (ensureBrowser_some_state o.launchOk st st1 tr1 he).2.2.2.2.1
    dsimp only
    split_ifs
    · rcases hs with ⟨h1, h2⟩ | ⟨h1, h2⟩
      · left ; exact ⟨h1, h2⟩
      · right ; exact ⟨h1, h2⟩
    · rw [capturePhase_browser, capturePhase_launches]
      exact hs

lemma alarm_pendingAlarms (c : Bool) (st : Sys) :
    (Browser.alarm c st).2.pendingAlarms = st.pendingAlarms + 1
    ∨ (Browser.alarm c st).2.pendingAlarms = st.pendingAlarms := by
  unfold Browser.alarm
  cases hb : st.browser <;> split_ifs <;> simp_all

lemma alarm_browser_launches (c : Bool) (st : Sys) :
    (Browser.alarm c st).2.browser.isSome = st.browser.isSome
    ∧ (Browser.alarm c st).2.launchesSucceeded = st.launchesSucceeded := by
  unfold Browser.alarm
  cases hb : st.browser <;> split_ifs <;> simp_all

/-! ### Iterated idle ticks -/

lemma sysTickOk_below (k : Nat) (br : Option Handle) (ls td : Nat)
    (hk : k + 10 < 60) :
    sysTickOk ⟨k, br, 1, ls, td⟩ = ⟨k + 10, br, 1, ls, td⟩ := by
  unfold sysTickOk Browser.alarm KEEP_BROWSER_ALIVE_IN_SECONDS
  simp [hk]

lemma sysTickOk_teardown (k : Nat) (b : Handle) (p ls td : Nat)
    (hk : ¬(k + 10 < 60)) :
    sysTickOk ⟨k, some b, p, ls, td⟩ = ⟨k + 10, some ⟨false⟩, p - 1, ls, td + 1⟩ := by
  unfold sysTickOk Browser.alarm KEEP_BROWSER_ALIVE_IN_SECONDS
  simp [hk]

lemma iterAlarmOk_below (k n : Nat) (br : Option Handle) (ls td : Nat)
    (hk : k + 10 * n < 60) :
    iterAlarmOk n ⟨k, br, 1, ls, td⟩ = ⟨k + 10 * n, br, 1, ls, td⟩ := by
  induction n with
  | zero => simp [iterAlarmOk]
  | succ n ih =>
      have h1 : k + 10 * n < 60 := by omega
      rw [iterAlarmOk, ih h1, sysTickOk_below (k + 10 * n) br ls td (by omega),
          show k + 10 * (n + 1) = k + 10 * n + 10 by ring]

lemma step_tickOk (st : Sys) (hp : 1 ≤ st.pendingAlarms) : Step st (sysTickOk st) :=
  Step.tick true st hp

lemma reachable_stAfterCapture : Reachable stAfterCapture :=
  Reachable.step Reachable.init (Step.capture Oracle.allOk "abc123" exHeaders Sys.init)

lemma reachable_exTeardownSt : Reachable exTeardownSt := by
  have h1 : Reachable (iterAlarmOk 1 stAfterCapture) :=
    Reachable.step reachable_stAfterCapture (step_tickOk stAfterCapture (by decide))
  have h2 : Reachable (iterAlarmOk 2 stAfterCapture) :=
    Reachable.step h1 (step_tickOk (iterAlarmOk 1 stAfterCapture) (by decide))
  have h3 : Reachable (iterAlarmOk 3 stAfterCapture) :=
    Reachable.step h2 (step_tickOk (iterAlarmOk 2 stAfterCapture) (by decide))
  have h4 : Reachable (iterAlarmOk 4 stAfterCapture) :=
    Reachable.step h3 (step_tickOk (iterAlarmOk 3 stAfterCapture) (by decide))
  have h5 : Reachable (iterAlarmOk 5 stAfterCapture) :=
    Reachable.step h4 (step_tickOk (iterAlarmOk 4 stAfterCapture) (by decide))
  exact Reachable.step h5 (step_tickOk (iterAlarmOk 5 stAfterCapture) (by decide))

lemma fetch_shape (o : Oracle) (tok : String) (h : CaptureHeaders) (st : Sys) :
    outcomeShapeOk (Browser.fetch o tok h st).1 = true := by
  unfold Browser.fetch
  split_ifs <;> try rfl
  rcases he : Browser.ensureBrowser o.launchOk st with _ | ⟨st1, tr1⟩
  · rfl
  · dsimp only
    split_ifs
    · rfl
    · rw [capturePhase_outcome]
      split_ifs <;> rfl

lemma step_pendingAlarms {st st2 : Sys} (s : Step st st2)
    (ih : st.pendingAlarms ≤ 1) : st2.pendingAlarms ≤ 1 := by
  cases s with
  | capture o tok h =>
      rcases fetch_pendingAlarms o tok h st with hq | ⟨h1, h0⟩ <;> omega
  | tick c stX hp =>
      have hproj : ({ st with pendingAlarms := st.pendingAlarms - 1 } : Sys).pendingAlarms
          = st.pendingAlarms - 1 := rfl
      rcases alarm_pendingAlarms c { st with pendingAlarms := st.pendingAlarms - 1 }
        with hq | hq <;> rw [hproj] at hq <;> omega
  | disconnect stX b hb => exact ih

lemma step_handle_iff_launched {st st2 : Sys} (s : Step st st2)
    (ih : st.browser.isSome = true ↔ 1 ≤ st.launchesSucceeded) :
    st2.browser.isSome = true ↔ 1 ≤ st2.launchesSucceeded := by
  cases s with
  | capture o tok h =>
      rcases fetch_browser_launches o tok h st with ⟨h1, h2⟩ | ⟨h1, h2⟩
      · rw [h1, h2] ; exact ih
      · rw [h1, h2] ; simp
  | tick c stX hp =>
      have h := alarm_browser_launches c { st with pendingAlarms := st.pendingAlarms - 1 }
      rw [h.1, h.2]
      exact ih
  | disconnect stX b hb =>
      refine ⟨fun _ => ih.mp ?_, fun _ => rfl⟩
      rw [hb] ; rfl

/-! ### Claims C1, C2, C3 -/

/-- C1 is false on the code: on a navigation failure the catch block of
`Browser.fetch` returns the 500 without closing the page that was opened
for this call — the page is opened (pagesOpened = 1) but never closed
(pagesClosed = 0). -/
theorem C1_counterexample :
    (Browser.fetch { Oracle.allOk with gotoOk := false } "abc123" exHeaders
        Sys.init).2.2.pagesOpened = 1
    ∧ (Browser.fetch { Oracle.allOk with gotoOk := false } "abc123" exHeaders
        Sys.init).2.2.pagesClosed = 0
    ∧ (Browser.fetch { Oracle.allOk with gotoOk := false } "abc123" exHeaders Sys.init).1
      = .resp ⟨500, .jsonFailure "Error during page operations"⟩ :=
  ⟨rfl, rfl, rfl⟩

/-- C1 (amended): for every `Browser.fetch` call that reaches the point
where a page context is opened, the page is closed exactly once iff all
of setViewport, goto, screenshot, bucket put and the close itself
succeed; on any failure among them the catch returns without closing the
page (it is leaked, closed zero times). -/
theorem C1_page_closed_iff_success (o : Oracle) (tok : String) (h : CaptureHeaders) (st : Sys)
    (hu : jsTruthy h.url = true) (hv : isValidURL (h.url.getD "") = true)
    (hid : jsTruthy h.userId = true)
    (hl : handleConnected st.browser = true ∨ o.launchOk = true)
    (hnp : o.newPageOk = true) :
    (Browser.fetch o tok h st).2.2.pagesOpened = 1
    ∧ ((Browser.fetch o tok h st).2.2.pagesClosed
        = if o.setViewportOk && o.gotoOk && o.screenshotOk && o.putOk && o.pageCloseOk
          then 1 else 0) := by
  rcases he : Browser.ensureBrowser o.launchOk st with _ | ⟨st1, tr1⟩
  · rcases ensureBrowser_none_state o.launchOk st he with ⟨hc, hl2⟩
    rcases hl with hl | hl <;> simp_all
  · obtain ⟨-, -, -, -, -, ho, hcl, -, -⟩ := ensureBrowser_some_state o.launchOk st st1 tr1 he
    rw [fetch_valid_eq o tok h st st1 tr1 hu hv hid he, capturePhase_trace]
    constructor
    · rw [runPageOps_pagesOpened _ _ _ _ hnp, ho]
    · rw [runPageOps_pagesClosed, hcl, hnp]
      simp

/-- Witness for C1 (amended): a concrete all-successful capture opens and
closes the page exactly once. -/
theorem C1_page_closed_iff_success_witness :
    (Browser.fetch Oracle.allOk "abc123" exHeaders Sys.init).2.2.pagesOpened = 1
    ∧ (Browser.fetch Oracle.allOk "abc123" exHeaders Sys.init).2.2.pagesClosed = 1 := by
  have h := C1_page_closed_iff_success Oracle.allOk "abc123" exHeaders Sys.init rfl rfl rfl
    (Or.inr rfl) rfl
  exact ⟨h.1, by simpa using h.2⟩

/-- C2 is false as stated: a present but syntactically invalid `url`
header does not produce a 400 validation response — `new URL` throws and
the exception escapes `Browser.fetch` uncaught (though indeed no browser
interaction happens and the state is unchanged). -/
theorem C2_counterexample :
    (Browser.fetch Oracle.allOk "abc123" ⟨some "not-a-url", some "user_42", none⟩ Sys.init).1
      = .thrown "TypeError: Invalid URL"
    ∧ ((Browser.fetch Oracle.allOk "abc123" ⟨some "not-a-url", some "user_42", none⟩
        Sys.init).1).isResp = false
    ∧ (Browser.fetch Oracle.allOk "abc123" ⟨some "not-a-url", some "user_42", none⟩
        Sys.init).2.1 = Sys.init
    ∧ (Browser.fetch Oracle.allOk "abc123" ⟨some "not-a-url", some "user_42", none⟩
        Sys.init).2.2.launchAttempts = 0 :=
  ⟨rfl, rfl, rfl, rfl⟩

/-- C2 (amended): an absent (or empty) `url` header yields the structured
400 missing-URL response, a valid `url` with an absent/empty `user-id`
yields the structured 400 missing-user response, and a present but
invalid `url` raises an uncaught TypeError; in all three cases the
Session state is returned unchanged and no effect happens (empty trace:
no launch attempt, no counter reset, no timer scheduled). -/
theorem C2_input_validation (st : Sys) (o : Oracle) (tok : String) (h : CaptureHeaders) :
    (jsTruthy h.url = false →
      Browser.fetch o tok h st
        = (.resp ⟨400, .jsonFailure "Invalid capture options: Missing URL"⟩, st, Trace.empty))
    ∧ (jsTruthy h.url = true → isValidURL (h.url.getD "") = false →
      Browser.fetch o tok h st = (.thrown "TypeError: Invalid URL", st, Trace.empty))
    ∧ (jsTruthy h.url = true → isValidURL (h.url.getD "") = true → jsTruthy h.userId = false →
      Browser.fetch o tok h st
        = (.resp ⟨400, .jsonFailure "Invalid capture options: Missing user ID"⟩, st,
            Trace.empty)) := by
  refine ⟨?_, ?_, ?_⟩
  · intro h1
    unfold Browser.fetch
    simp [h1]
  · intro h1 h2
    unfold Browser.fetch
    simp [h1, h2]
  · intro h1 h2 h3
    unfold Browser.fetch
    simp [h1, h2, h3]

/-- Witness for C2 (amended): concrete missing-URL request is rejected
with the structured 400 and no state change. -/
theorem C2_input_validation_witness :
    Browser.fetch Oracle.allOk "abc123" ⟨none, some "user_42", none⟩ Sys.init
      = (.resp ⟨400, .jsonFailure "Invalid capture options: Missing URL"⟩, Sys.init,
          Trace.empty) :=
  (C2_input_validation Sys.init Oracle.allOk "abc123" ⟨none, some "user_42", none⟩).1 rfl

/-- C3 is false as stated: the artifact is indeed written under
`captures/user-{base64(userId)}/{captureId}.jpg`, but the success result
returned to the caller carries only the bare `captureKey` — not the
storage key under which the bytes were written (the returned string is
not among the keys written to the bucket). -/
theorem C3_counterexample :
    (Browser.fetch Oracle.allOk "abc123" exHeaders Sys.init).1
      = .resp ⟨200, .jsonSuccessKey "Oabc123"⟩
    ∧ (Browser.fetch Oracle.allOk "abc123" exHeaders Sys.init).2.2.puts
      = ["captures/user-dXNlcl80Mg==/Oabc123.jpg"]
    ∧ ((Browser.fetch Oracle.allOk "abc123" exHeaders Sys.init).2.2.puts).contains "Oabc123"
      = false :=
  ⟨rfl, rfl, rfl⟩

/-- C3 (amended): on every successful capture the bytes are written under
exactly one key `captures/user-{btoa(userId)}/{generateId(tok)}.jpg`
(where `generateId` is the fixed marker followed by the 6-character
alphanumeric token), but the success result carries only
`generateId(tok)`, not the full storage key. -/
theorem C3_storage_key_format (st : Sys) (tok u uid : String) (fp : Option String)
    (htok : isNanoidToken tok = true)
    (hu : u.isEmpty = false) (hv : isValidURL u = true) (huid : uid.isEmpty = false) :
    (Browser.fetch Oracle.allOk tok ⟨some u, some uid, fp⟩ st).2.2.puts
      = ["captures/user-" ++ btoa uid ++ "/" ++ (generateId tok none ++ ".jpg")]
    ∧ (Browser.fetch Oracle.allOk tok ⟨some u, some uid, fp⟩ st).1
      = .resp ⟨200, .jsonSuccessKey (generateId tok none)⟩ := by
  have hu2 : jsTruthy (some u) = true := by simp [jsTruthy, hu]
  have hid2 : jsTruthy (some uid) = true := by simp [jsTruthy, huid]
  rcases he : Browser.ensureBrowser Oracle.allOk.launchOk st with _ | ⟨st1, tr1⟩
  · rcases ensureBrowser_none_state _ st he with ⟨-, hl2⟩
    simp [Oracle.allOk] at hl2
  · obtain ⟨-, -, -, -, -, -, -, hput, -⟩ := ensureBrowser_some_state _ st st1 tr1 he
    rw [fetch_valid_eq Oracle.allOk tok ⟨some u, some uid, fp⟩ st st1 tr1 hu2 hv hid2 he]
    constructor
    · rw [capturePhase_trace, runPageOps_puts, hput]
      simp [Oracle.allOk]
    · rw [capturePhase_outcome, runPageOps_fst]
      simp [Oracle.allOk]

/-- Witness for C3 (amended): concrete run writing exactly the formatted
key and returning only the capture id. -/
theorem C3_storage_key_format_witness :
    (Browser.fetch Oracle.allOk "abc123" ⟨some "https://example.com", some "user_42", none⟩
        Sys.init).2.2.puts
      = ["captures/user-" ++ btoa "user_42" ++ "/" ++ (generateId "abc123" none ++ ".jpg")] :=
  (C3_storage_key_format Sys.init "abc123" "https://example.com" "user_42" none rfl rfl rfl
    rfl).1

/-! ### Claims C4 through C10 -/

/-- C4: starting from any state with a live handle and the one pending
timer, each idle tick below the threshold adds exactly 10 to the counter
and leaves everything else (handle, single pending timer) unchanged; the
tick that reaches the threshold (counter 60) closes the browser exactly
once (teardownsCompleted + 1) and schedules no further tick
(pendingAlarms = 0). -/
theorem C4_idle_accounting (st : Sys) (b : Handle) (n : Nat)
    (hb : st.browser = some b) (hp : st.pendingAlarms = 1) :
    (st.keptAliveInSeconds + 10 * (n + 1) < 60 →
      iterAlarmOk (n + 1) st
        = { st with keptAliveInSeconds := st.keptAliveInSeconds + 10 * (n + 1) })
    ∧ (st.keptAliveInSeconds + 10 * n < 60 → 60 ≤ st.keptAliveInSeconds + 10 * (n + 1) →
      iterAlarmOk (n + 1) st
        = { st with keptAliveInSeconds := st.keptAliveInSeconds + 10 * (n + 1),
                    pendingAlarms := 0, browser := some ⟨false⟩,
                    teardownsCompleted := st.teardownsCompleted + 1 }) := by
  obtain ⟨k, br, p, ls, td⟩ := st
  simp only at hb hp
  subst hb hp
  constructor
  · intro hlt
    exact iterAlarmOk_below k (n + 1) (some b) ls td hlt
  · intro h1 h2
    simp only at h1 h2
    rw [iterAlarmOk, iterAlarmOk_below k n (some b) ls td h1,
        sysTickOk_teardown (k + 10 * n) b 1 ls td (by omega),
        show k + 10 * (n + 1) = k + 10 * n + 10 by ring]

/-- Witness for C4: from the concrete post-capture state (counter 0), the
sixth tick reaches 60, tears the browser down once and leaves no pending
timer. -/
theorem C4_idle_accounting_witness :
    iterAlarmOk 6 stAfterCapture
      = { stAfterCapture with
            keptAliveInSeconds := stAfterCapture.keptAliveInSeconds + 10 * 6,
            pendingAlarms := 0, browser := some ⟨false⟩,
            teardownsCompleted := stAfterCapture.teardownsCompleted + 1 } :=
  (C4_idle_accounting stAfterCapture ⟨true⟩ 5 rfl rfl).2 (by decide) (by decide)

/-- C5 is false as stated: after the idle-threshold teardown the
`browser` field is NOT nulled — the alarm handler closes the browser but
never assigns null, so a reachable state exists in which a launch
succeeded, a teardown has since completed, and the handle field is still
non-null. -/
theorem C5_counterexample :
    Reachable exTeardownSt
    ∧ exTeardownSt.teardownsCompleted = 1
    ∧ exTeardownSt.launchesSucceeded = 1
    ∧ exTeardownSt.browser.isSome = true :=
  ⟨reachable_exTeardownSt, rfl, rfl, rfl⟩

/-- C5 (amended): in every reachable state, the browser field is non-null
iff some launch has ever succeeded; a teardown closes the connection but
leaves the field set (staleness is detected via `isConnected` on the
next capture), and a failed launch never sets the field. -/
theorem C5_handle_iff_launched (st : Sys) (hr : Reachable st) :
    st.browser.isSome = true ↔ 1 ≤ st.launchesSucceeded := by
  induction hr with
  | init => simp [Sys.init]
  | step hr s ih => exact step_handle_iff_launched s ih

/-- Witness for C5 (amended): in the concrete post-teardown reachable
state the handle is set and a launch has succeeded. -/
theorem C5_handle_iff_launched_witness :
    exTeardownSt.browser.isSome = true ∧ 1 ≤ exTeardownSt.launchesSucceeded := by
  have h := C5_handle_iff_launched exTeardownSt reachable_exTeardownSt
  exact ⟨rfl, h.mp rfl⟩

/-- C6: in every reachable state at most one idle-check timer is pending,
and a capture arriving while one is pending never schedules a second
(the alarm-count is unchanged by the capture). -/
theorem C6_at_most_one_timer (st : Sys) (hr : Reachable st) :
    st.pendingAlarms ≤ 1
    ∧ ∀ o tok h, 1 ≤ st.pendingAlarms →
        (Browser.fetch o tok h st).2.1.pendingAlarms = st.pendingAlarms := by
  have main : st.pendingAlarms ≤ 1 := by
    induction hr with
    | init => simp [Sys.init]
    | step hr s ih => exact step_pendingAlarms s ih
  refine ⟨main, ?_⟩
  intro o tok h hge
  rcases fetch_pendingAlarms o tok h st with hq | ⟨h1, h0⟩
  · exact hq
  · omega

/-- Witness for C6: the concrete post-capture state has exactly one
pending timer and a further capture does not add a second. -/
theorem C6_at_most_one_timer_witness :
    stAfterCapture.pendingAlarms ≤ 1
    ∧ (Browser.fetch Oracle.allOk "xyz789" exHeaders stAfterCapture).2.1.pendingAlarms
      = stAfterCapture.pendingAlarms := by
  have h := C6_at_most_one_timer stAfterCapture reachable_stAfterCapture
  exact ⟨h.1, h.2 Oracle.allOk "xyz789" exHeaders (by decide)⟩

/-- C7: a valid capture arriving after N idle ticks (0 < N < 6, so the
accumulated idle time 10N is below the threshold) finds the counter at
10N and the handle alive, resets the counter to 0, keeps the same
handle, performs no teardown and no launch. -/
theorem C7_capture_after_idle (N : Nat) (hN0 : 0 < N) (hN : N < 6) (st : Sys)
    (hb : st.browser = some ⟨true⟩) (hp : st.pendingAlarms = 1)
    (hk : st.keptAliveInSeconds = 0)
    (o : Oracle) (tok : String) (h : CaptureHeaders)
    (hu : jsTruthy h.url = true) (hv : isValidURL (h.url.getD "") = true)
    (hid : jsTruthy h.userId = true) :
    (iterAlarmOk N st).keptAliveInSeconds = 10 * N
    ∧ (iterAlarmOk N st).browser = some ⟨true⟩
    ∧ (iterAlarmOk N st).teardownsCompleted = st.teardownsCompleted
    ∧ (Browser.fetch o tok h (iterAlarmOk N st)).2.1.keptAliveInSeconds = 0
    ∧ (Browser.fetch o tok h (iterAlarmOk N st)).2.1.browser = some ⟨true⟩
    ∧ (Browser.fetch o tok h (iterAlarmOk N st)).2.1.teardownsCompleted
      = st.teardownsCompleted
    ∧ (Browser.fetch o tok h (iterAlarmOk N st)).2.2.launchAttempts = 0 := by
  obtain ⟨k, br, p, ls, td⟩ := st
  simp only at hb hp hk
  subst hb hp hk
  have hiter : iterAlarmOk N ⟨0, some ⟨true⟩, 1, ls, td⟩ = ⟨10 * N, some ⟨true⟩, 1, ls, td⟩ := by
    have h0 := iterAlarmOk_below 0 N (some ⟨true⟩) ls td (by omega)
    simpa using h0
  rw [hiter]
  have he : Browser.ensureBrowser o.launchOk ⟨10 * N, some ⟨true⟩, 1, ls, td⟩
      = some (⟨10 * N, some ⟨true⟩, 1, ls, td⟩, Trace.empty) :=
    ensureBrowser_connected o.launchOk _ rfl
  rw [fetch_valid_eq o tok h _ _ _ hu hv hid he]
  refine ⟨rfl, rfl, rfl, capturePhase_keptAlive _ _ _ _ _ _, ?_, ?_, ?_⟩
  · rw [capturePhase_browser]
  · rw [capturePhase_teardowns]
  · rw [capturePhase_trace, runPageOps_launchAttempts]
    rfl

/-- Witness for C7: after three concrete ticks the counter is 30, and a
concrete capture resets it to 0 keeping the same connected handle. -/
theorem C7_capture_after_idle_witness :
    (iterAlarmOk 3 stAfterCapture).keptAliveInSeconds = 10 * 3
    ∧ (Browser.fetch Oracle.allOk "xyz789" exHeaders
        (iterAlarmOk 3 stAfterCapture)).2.1.keptAliveInSeconds = 0
    ∧ (Browser.fetch Oracle.allOk "xyz789" exHeaders
        (iterAlarmOk 3 stAfterCapture)).2.1.browser = some ⟨true⟩ := by
  have h := C7_capture_after_idle 3 (by decide) (by decide) stAfterCapture rfl rfl rfl
    Oracle.allOk "xyz789" exHeaders rfl rfl rfl
  exact ⟨h.1, h.2.2.2.1, h.2.2.2.2.1⟩

/-- C8 is false as stated: there is no try/catch around `browser.close()`
in the alarm handler, so when the close fails during the idle-threshold
teardown the alarm RAISES (the error escapes the handler) instead of
completing; the handle field is also not discarded. -/
theorem C8_counterexample :
    (Browser.alarm false { exIdleSt with pendingAlarms := exIdleSt.pendingAlarms - 1 }).1
      = .error "browser.close failed"
    ∧ (Browser.alarm false
        { exIdleSt with pendingAlarms := exIdleSt.pendingAlarms - 1 }).2.browser
      = some ⟨true⟩ :=
  ⟨rfl, rfl⟩

/-- C8 (amended): when the teardown path runs (counter reaches the
threshold) and the close fails, the exception propagates out of `alarm`
(the scheduling substrate, not any caller, observes it); the browser
field still holds the handle and the counter increment persists. -/
theorem C8_teardown_close_error (st : Sys) (b : Handle)
    (hb : st.browser = some b) (hk : 60 ≤ st.keptAliveInSeconds + 10) :
    (Browser.alarm false st).1 = .error "browser.close failed"
    ∧ (Browser.alarm false st).2.browser = some b
    ∧ (Browser.alarm false st).2.keptAliveInSeconds = st.keptAliveInSeconds + 10 := by
  obtain ⟨k, br, p, ls, td⟩ := st
  simp only at hb hk
  subst hb
  unfold Browser.alarm KEEP_BROWSER_ALIVE_IN_SECONDS
  have hlt : ¬(k + 10 < 60) := by omega
  simp [hlt]

/-- Witness for C8 (amended): the concrete 50-second idle state with a
failing close makes the alarm raise and keeps the handle. -/
theorem C8_teardown_close_error_witness :
    (Browser.alarm false exIdleSt).1 = .error "browser.close failed"
    ∧ (Browser.alarm false exIdleSt).2.browser = some ⟨true⟩ := by
  have h := C8_teardown_close_error exIdleSt ⟨true⟩ rfl (by decide)
  exact ⟨h.1, h.2.1⟩

/-- C9 is false as stated: the method rejection of the router is a plain-text
`"Invalid method"` 405 response, not the structured
`{ success: false, error: ... }` payload. -/
theorem C9_counterexample :
    (workerFetch "https://r2.clipster.dev" Oracle.allOk "abc123"
        ⟨"PUT", some "user_42", none⟩ Sys.init).1
      = .resp ⟨405, .text "Invalid method"⟩
    ∧ isStructuredFailure (Body.text "Invalid method") = false :=
  ⟨rfl, rfl⟩

/-- C9 (amended): every response the Durable Object handler returns is of
the classified shapes — structured 400 for the two input defects,
structured 500 for launch/page-operation failures, structured
`{ success: true, key }` with status 200 — while the router
uses a plain-text 405 for its disallowed-method rejection (not structured). -/
theorem C9_response_shapes (o : Oracle) (tok : String) (h : CaptureHeaders) (st : Sys) :
    (∀ r, (Browser.fetch o tok h st).1 = .resp r → doResponseShape r = true)
    ∧ (∀ (origin : String) (req : RouterRequest) (st2 : Sys),
        jsTruthy req.auth = true → req.method ≠ "GET" → req.method ≠ "POST" →
        (workerFetch origin o tok req st2).1 = .resp ⟨405, .text "Invalid method"⟩) := by
  constructor
  · intro r hr
    have hs := fetch_shape o tok h st
    rw [hr] at hs
    exact hs
  · intro origin req st2 ha hg hp2
    unfold workerFetch
    simp [ha, hg, hp2]

/-- Witness for C9 (amended): the missing-URL 400 has the classified
shape, and a concrete PUT request gets the plain-text 405. -/
theorem C9_response_shapes_witness :
    doResponseShape ⟨400, .jsonFailure "Invalid capture options: Missing URL"⟩ = true
    ∧ (workerFetch "https://r2.clipster.dev" Oracle.allOk "abc123"
        ⟨"PUT", some "user_42", none⟩ Sys.init).1 = .resp ⟨405, .text "Invalid method"⟩ := by
  have h := C9_response_shapes Oracle.allOk "abc123" ⟨none, some "user_42", none⟩ Sys.init
  exact ⟨h.1 ⟨400, .jsonFailure "Invalid capture options: Missing URL"⟩ rfl,
         h.2 "https://r2.clipster.dev" ⟨"PUT", some "user_42", none⟩ Sys.init rfl
           (by decide) (by decide)⟩

/-- C10: the full-page decision is JavaScript string truthiness of the
`full-page` header — any non-empty value (including "false" and "0")
enables fullPage; only an absent or empty header yields a
viewport-bounded capture. -/
theorem C10_fullpage_truthiness (o : Oracle) (tok : String) (st : Sys)
    (u uid : String) (fp : Option String)
    (hu : u.isEmpty = false) (hv : isValidURL u = true) (huid : uid.isEmpty = false)
    (hl : handleConnected st.browser = true ∨ o.launchOk = true)
    (hnp : o.newPageOk = true) (hsv : o.setViewportOk = true) (hg : o.gotoOk = true) :
    (Browser.fetch o tok ⟨some u, some uid, fp⟩ st).2.2.screenshotFullPage
      = some (jsTruthy fp)
    ∧ jsTruthy (some "false") = true ∧ jsTruthy (some "0") = true
    ∧ jsTruthy none = false ∧ jsTruthy (some "") = false := by
  have hu2 : jsTruthy (some u) = true := by simp [jsTruthy, hu]
  have hid2 : jsTruthy (some uid) = true := by simp [jsTruthy, huid]
  rcases he : Browser.ensureBrowser o.launchOk st with _ | ⟨st1, tr1⟩
  · rcases ensureBrowser_none_state o.launchOk st he with ⟨hc, hl2⟩
    rcases hl with hl | hl <;> simp_all
  · refine ⟨?_, rfl, rfl, rfl, rfl⟩
    rw [fetch_valid_eq o tok ⟨some u, some uid, fp⟩ st st1 tr1 hu2 hv hid2 he,
        capturePhase_trace, runPageOps_fullPage _ _ _ _ hnp hsv hg]

/-- Witness for C10: a concrete request with `full-page: false` still
gets a full-page screenshot. -/
theorem C10_fullpage_truthiness_witness :
    (Browser.fetch Oracle.allOk "abc123"
        ⟨some "https://example.com", some "user_42", some "false"⟩
        Sys.init).2.2.screenshotFullPage = some true := by
  have h := C10_fullpage_truthiness Oracle.allOk "abc123" Sys.init "https://example.com"
    "user_42" (some "false") rfl rfl rfl (Or.inr rfl) rfl rfl rfl
  exact h.1.trans rfl
